import Mathlib

/-!
Verification of the process-supervisor core of `src/ACP.py` (the
Azerothcore Control Panel).  The Python code is shallowly embedded:
UI-object state that the supervision logic reads and writes becomes the
`Launcher` record, Qt/OS side effects become explicit action traces, and
filesystem / process facts that the code consults become explicit
environment records.  Each definition's doc comment names the Python
function it translates.
-/

namespace ACP

/-- `sys.platform` as the source consults it: the `"win32"` branch or the
Unix-like branch. -/
inductive Platform where
  | win32
  | unix
deriving DecidableEq, Repr

/-- The five supervised services (ServiceKind): MySQL (Database),
AuthServer, WorldServer, the game Client and the Apache WebServer. -/
inductive ServiceKind where
  | Database
  | AuthServer
  | WorldServer
  | Client
  | WebServer
deriving DecidableEq, Repr

/-- A `*ProcessThread` object as the launcher sees it: whether the QThread
is still running (`isRunning()`), and the `was_manually_stopped` attribute.
In Python the attribute is absent until a `stop_*` method sets it to True;
`hasattr(thread, 'was_manually_stopped')` is therefore modelled by this
Boolean being `true`. -/
structure ProcThread where
  running : Bool
  was_manually_stopped : Bool
deriving DecidableEq, Repr

/-- LED display status set by `set_status_led` and friends. -/
inductive Led where
  | stopped
  | starting
  | running
deriving DecidableEq, Repr

/-- `self.process_thread and self.process_thread.isRunning()`. -/
def threadIsRunning : Option ProcThread → Bool
  | none => false
  | some t => t.running

/-- `hasattr(self.thread, 'was_manually_stopped')` for an optional thread. -/
def threadManuallyStopped : Option ProcThread → Bool
  | none => false
  | some t => t.was_manually_stopped

/-- The fields of the `MySQLLauncher` window object that the process
supervision logic of `src/ACP.py` reads and writes: the global autorestart
flag, the five configured executable paths, and per service its process
thread, its `*_is_starting` flag, its startup (grace) timer, its countdown
seconds, its status LED and its start/stop button enabled states. -/
structure Launcher where
  autorestart_enabled : Bool
  mysql_path : String
  auth_path : String
  world_path : String
  client_path : String
  web_path : String
  process_thread : Option ProcThread
  auth_process_thread : Option ProcThread
  world_process_thread : Option ProcThread
  client_process_thread : Option ProcThread
  web_process_thread : Option ProcThread
  is_starting : Bool
  auth_is_starting : Bool
  world_is_starting : Bool
  client_is_starting : Bool
  web_is_starting : Bool
  startup_timer : Bool
  auth_startup_timer : Bool
  world_startup_timer : Bool
  client_startup_timer : Bool
  web_startup_timer : Bool
  status_led : Led
  auth_status_led : Led
  world_status_led : Led
  client_status_led : Led
  web_status_led : Led
  start_btn : Bool
  stop_btn : Bool
  auth_start_btn : Bool
  auth_stop_btn : Bool
  world_start_btn : Bool
  world_stop_btn : Bool
  client_start_btn : Bool
  client_stop_btn : Bool
  web_start_btn : Bool
  web_stop_btn : Bool
  mysql_countdown_seconds : Nat
  auth_countdown_seconds : Nat
  world_countdown_seconds : Nat
  client_countdown_seconds : Nat
  web_countdown_seconds : Nat
deriving DecidableEq, Repr

/-- The process thread field of the given service's entry. -/
def threadOf : ServiceKind → Launcher → Option ProcThread
  | .Database, st => st.process_thread
  | .AuthServer, st => st.auth_process_thread
  | .WorldServer, st => st.world_process_thread
  | .Client, st => st.client_process_thread
  | .WebServer, st => st.web_process_thread

/-- The `*_is_starting` flag of the given service's entry. -/
def isStartingOf : ServiceKind → Launcher → Bool
  | .Database, st => st.is_starting
  | .AuthServer, st => st.auth_is_starting
  | .WorldServer, st => st.world_is_starting
  | .Client, st => st.client_is_starting
  | .WebServer, st => st.web_is_starting

/-- The countdown-seconds field of the given service's entry. -/
def countdownOf : ServiceKind → Launcher → Nat
  | .Database, st => st.mysql_countdown_seconds
  | .AuthServer, st => st.auth_countdown_seconds
  | .WorldServer, st => st.world_countdown_seconds
  | .Client, st => st.client_countdown_seconds
  | .WebServer, st => st.web_countdown_seconds

/-! ## Process-finished handlers and the autorestart trigger -/

/-- `MySQLLauncher.on_process_finished` (src/ACP.py:4279).  Resets the
MySQL entry's displayed state to stopped and reports whether the handler
invokes `trigger_autorestart`: it does so exactly when
`self.autorestart_enabled and self.process_thread and not
hasattr(self.process_thread, 'was_manually_stopped')`. -/
def on_process_finished (st : Launcher) : Launcher × Bool :=
  ({ st with status_led := Led.stopped, start_btn := true, stop_btn := false,
             is_starting := false },
   st.autorestart_enabled && (threadOf .Database st).isSome &&
     !(threadManuallyStopped (threadOf .Database st)))

/-- `MySQLLauncher.on_auth_process_finished` (src/ACP.py:4291).  Same shape
as the MySQL handler, for the AuthServer entry. -/
def on_auth_process_finished (st : Launcher) : Launcher × Bool :=
  ({ st with auth_status_led := Led.stopped, auth_start_btn := true,
             auth_stop_btn := false, auth_is_starting := false },
   st.autorestart_enabled && (threadOf .AuthServer st).isSome &&
     !(threadManuallyStopped (threadOf .AuthServer st)))

/-- `MySQLLauncher.on_world_process_finished` (src/ACP.py:4303).  Same
shape as the MySQL handler, for the WorldServer entry. -/
def on_world_process_finished (st : Launcher) : Launcher × Bool :=
  ({ st with world_status_led := Led.stopped, world_start_btn := true,
             world_stop_btn := false, world_is_starting := false },
   st.autorestart_enabled && (threadOf .WorldServer st).isSome &&
     !(threadManuallyStopped (threadOf .WorldServer st)))

/-- `MySQLLauncher.on_client_process_finished` (src/ACP.py:4270).  Only
resets the Client entry's displayed state; never calls
`trigger_autorestart`. -/
def on_client_process_finished (st : Launcher) : Launcher × Bool :=
  ({ st with client_status_led := Led.stopped, client_start_btn := true,
             client_stop_btn := false, client_is_starting := false },
   false)

/-- `MySQLLauncher.on_web_process_finished` (src/ACP.py:4315).  Only
resets the WebServer entry's displayed state; never calls
`trigger_autorestart`. -/
def on_web_process_finished (st : Launcher) : Launcher × Bool :=
  ({ st with web_status_led := Led.stopped, web_start_btn := true,
             web_stop_btn := false, web_is_starting := false },
   false)

/-- The per-service `finished` handler: new launcher state, plus whether
the handler invoked `trigger_autorestart`. -/
def on_finished : ServiceKind → Launcher → Launcher × Bool
  | .Database => on_process_finished
  | .AuthServer => on_auth_process_finished
  | .WorldServer => on_world_process_finished
  | .Client => on_client_process_finished
  | .WebServer => on_web_process_finished

/-- Number of times a service's process-finished event invokes the
autorestart helper `trigger_autorestart`. -/
def autorestartInvocations (k : ServiceKind) (st : Launcher) : Nat :=
  if (on_finished k st).2 then 1 else 0

/-- `os.path.dirname`: the part of the path before its final path
separator (`/` or `\`); empty when the path holds no separator. -/
def dirname (p : String) : String :=
  let cs := p.toList
  let tail := cs.reverse.takeWhile (fun c => c ≠ '/' ∧ c ≠ '\\')
  if tail.length = cs.length then ""
  else String.mk (cs.take (cs.length - tail.length - 1))

/-- Facts the autorestart helper consults about the outside world:
whether `os.path.exists` finds the restart script next to the AuthServer
executable, and whether `subprocess.Popen` raises. -/
structure AutoEnv where
  restart_script_exists : Bool
  popen_raises : Bool

/-- A detached, fire-and-forget launch of the restart script (output
discarded / no console window, `DETACHED_PROCESS` or
`start_new_session`). -/
inductive AutoLaunch where
  | detachedScript (dir script : String)
deriving DecidableEq, Repr

/-- `MySQLLauncher.trigger_autorestart` (src/ACP.py:4412): returns early
unless `autorestart_enabled` is set and the AuthServer path is configured;
then looks for `Start-AutoRestart.bat` in the AuthServer executable's
directory and, if it exists, launches it detached.  The body is wrapped in
try/except with `pass`, so a `Popen` failure is swallowed (modelled by
returning `none`): the helper never raises. -/
def trigger_autorestart (st : Launcher) (env : AutoEnv) : Option AutoLaunch :=
  if !st.autorestart_enabled || st.auth_path = "" then none
  else
    let auth_dir := dirname st.auth_path
    let restart_script := auth_dir ++ "/Start-AutoRestart.bat"
    if env.restart_script_exists then
      if env.popen_raises then none
      else some (AutoLaunch.detachedScript auth_dir restart_script)
    else none

/-- Restart-script launches actually performed when service `k`'s
process-finished event fires. -/
def autorestartLaunches (k : ServiceKind) (st : Launcher) (env : AutoEnv) :
    Option AutoLaunch :=
  if (on_finished k st).2 then trigger_autorestart st env else none

/-! ## User-initiated stop methods on the launcher -/

/-- Observable steps of a `stop_*` method on the launcher, in the order the
method performs them. -/
inductive StopAct where
  | message (s : String)
  | set_manual_flag (k : ServiceKind)
  | stop_timer (k : ServiceKind)
  | stop_process_call (k : ServiceKind)
  | cleanup_sweep (k : ServiceKind)
  | taskkill_force (image : String)
deriving DecidableEq, Repr

/-- Sets `was_manually_stopped = True` on the thread (the Python attribute
assignment). -/
def setManualFlag : Option ProcThread → Option ProcThread
  | none => none
  | some t => some { t with was_manually_stopped := true }

/-- The thread after `stop_process(); quit(); wait()`: no longer running. -/
def stopThread : Option ProcThread → Option ProcThread
  | none => none
  | some t => some { t with running := false }

/-- `MySQLLauncher.stop_mysql` (src/ACP.py:4040).  If no tracked thread is
running, shows "MySQL is not running!" and returns with no state change.
Otherwise sets `was_manually_stopped`, stops the startup timer if armed,
runs the stop sequence and waits, then resets the displayed state. -/
def stop_mysql (st : Launcher) : Launcher × List StopAct :=
  if !(threadIsRunning st.process_thread) then
    (st, [StopAct.message "MySQL is not running!"])
  else
    ({ st with process_thread := stopThread (setManualFlag st.process_thread),
               startup_timer := false,
               status_led := Led.stopped, start_btn := true, stop_btn := false,
               is_starting := false },
     [StopAct.set_manual_flag .Database] ++
       (if st.startup_timer then [StopAct.stop_timer .Database] else []) ++
       [StopAct.stop_process_call .Database])

/-- `MySQLLauncher.stop_authserver` (src/ACP.py:4068).  Same shape as
`stop_mysql`, for the AuthServer entry. -/
def stop_authserver (st : Launcher) : Launcher × List StopAct :=
  if !(threadIsRunning st.auth_process_thread) then
    (st, [StopAct.message "AuthServer is not running!"])
  else
    ({ st with auth_process_thread := stopThread (setManualFlag st.auth_process_thread),
               auth_startup_timer := false,
               auth_status_led := Led.stopped, auth_start_btn := true,
               auth_stop_btn := false, auth_is_starting := false },
     [StopAct.set_manual_flag .AuthServer] ++
       (if st.auth_startup_timer then [StopAct.stop_timer .AuthServer] else []) ++
       [StopAct.stop_process_call .AuthServer])

/-- `MySQLLauncher.stop_worldserver` (src/ACP.py:4096).  Same shape as
`stop_mysql`, for the WorldServer entry. -/
def stop_worldserver (st : Launcher) : Launcher × List StopAct :=
  if !(threadIsRunning st.world_process_thread) then
    (st, [StopAct.message "WorldServer is not running!"])
  else
    ({ st with world_process_thread := stopThread (setManualFlag st.world_process_thread),
               world_startup_timer := false,
               world_status_led := Led.stopped, world_start_btn := true,
               world_stop_btn := false, world_is_starting := false },
     [StopAct.set_manual_flag .WorldServer] ++
       (if st.world_startup_timer then [StopAct.stop_timer .WorldServer] else []) ++
       [StopAct.stop_process_call .WorldServer])

/-- `MySQLLauncher.stop_webserver` (src/ACP.py:4154).  No not-running
check and no manual-stop flag: stops the timer if armed; if the tracked
thread is running it runs the stop sequence, otherwise it reuses the
Apache cleanup sweep on a temporary thread object; always resets the
displayed state to stopped. -/
def stop_webserver (st : Launcher) : Launcher × List StopAct :=
  let timerActs := if st.web_startup_timer then [StopAct.stop_timer .WebServer] else []
  let bodyActs :=
    if threadIsRunning st.web_process_thread then [StopAct.stop_process_call .WebServer]
    else [StopAct.cleanup_sweep .WebServer]
  ({ st with web_startup_timer := false,
             web_process_thread :=
               if threadIsRunning st.web_process_thread then stopThread st.web_process_thread
               else st.web_process_thread,
             web_status_led := Led.stopped, web_start_btn := true,
             web_stop_btn := false, web_is_starting := false },
   timerActs ++ bodyActs)

/-- `MySQLLauncher.stop_client` (src/ACP.py:4182).  No not-running check
and no manual-stop flag: stops the timer if armed, runs the stop sequence
when a tracked thread is running, then on win32 unconditionally
force-kills every `wow.exe` (`taskkill /im wow.exe /f`), and resets the
displayed state to stopped. -/
def stop_client (platform : Platform) (st : Launcher) : Launcher × List StopAct :=
  let timerActs := if st.client_startup_timer then [StopAct.stop_timer .Client] else []
  let stopActs :=
    if threadIsRunning st.client_process_thread then [StopAct.stop_process_call .Client]
    else []
  let killActs := if platform = Platform.win32 then [StopAct.taskkill_force "wow.exe"] else []
  ({ st with client_startup_timer := false,
             client_process_thread :=
               if threadIsRunning st.client_process_thread then stopThread st.client_process_thread
               else st.client_process_thread,
             client_status_led := Led.stopped, client_start_btn := true,
             client_stop_btn := false, client_is_starting := false },
   timerActs ++ stopActs ++ killActs)

/-- The per-service user-initiated stop command. -/
def stop_service (platform : Platform) : ServiceKind → Launcher → Launcher × List StopAct
  | .Database => stop_mysql
  | .AuthServer => stop_authserver
  | .WorldServer => stop_worldserver
  | .Client => stop_client platform
  | .WebServer => stop_webserver

/-- Index of the first occurrence of an action in a trace (length of the
trace when absent). -/
def idxOfAct (a : StopAct) : List StopAct → Nat
  | [] => 0
  | x :: xs => if x = a then 0 else idxOfAct a xs + 1

/-- The trace performs `a` strictly before `b`. -/
def actBefore (a b : StopAct) (l : List StopAct) : Prop :=
  a ∈ l ∧ b ∈ l ∧ idxOfAct a l < idxOfAct b l

instance (a b : StopAct) (l : List StopAct) : Decidable (actBefore a b l) := by
  unfold actBefore; infer_instance

/-! ## Per-thread stop escalation (`stop_process` methods) -/

/-- How the external OS process responds to graceful signals: the number
of seconds after the signal at which it would exit, or `none` when it
ignores that signal.  A response slower than the stage's timeout counts as
ignoring it (the escalation preempts it).  `kill()` always succeeds. -/
structure ProcBehavior where
  exit_on_int : Option Nat
  exit_on_term : Option Nat
deriving DecidableEq, Repr

/-- A signal sent during the stop sequence.  `terminate()` is SIGTERM,
`send_signal(signal.SIGINT)` is SIGINT, `kill()` is the force-kill. -/
inductive StopStage where
  | sigint
  | sigterm
  | forceKill
deriving DecidableEq, Repr

/-- Which stage produced the exit. -/
inductive StopOutcome where
  | gracefulInt
  | gracefulTerm
  | forced
deriving DecidableEq, Repr

/-- Result of a `stop_process` run on a tracked process: the signals sent
in order, the stage that produced the exit, the seconds spent in bounded
(`wait(timeout=...)`) waits, and whether an unbounded `wait()` for exit
confirmation followed the force-kill. -/
structure StopResult where
  signals : List StopStage
  outcome : StopOutcome
  waited : Nat
  final_wait_confirm : Bool
deriving DecidableEq, Repr

/-- The Unix tail of `MySQLProcessThread.stop_process`: after the SIGINT
window timed out, `terminate()` and wait up to 10 s, then force-kill and
wait if that also times out. -/
def mysqlUnixEscalate (b : ProcBehavior) : StopResult :=
  match b.exit_on_term with
  | some t =>
    if t ≤ 10 then
      { signals := [StopStage.sigint, StopStage.sigterm],
        outcome := StopOutcome.gracefulTerm, waited := 15 + t, final_wait_confirm := false }
    else
      { signals := [StopStage.sigint, StopStage.sigterm, StopStage.forceKill],
        outcome := StopOutcome.forced, waited := 15 + 10, final_wait_confirm := true }
  | none =>
    { signals := [StopStage.sigint, StopStage.sigterm, StopStage.forceKill],
      outcome := StopOutcome.forced, waited := 15 + 10, final_wait_confirm := true }

namespace MySQLProcessThread

/-- `MySQLProcessThread.stop_process` (src/ACP.py:1091), for a tracked
process.  On win32 the first (and only graceful) signal is `terminate()`
with a 15 s window, then `kill(); wait()`.  On Unix the first signal is
SIGINT with a 15 s window, escalating to SIGTERM with a 10 s window, then
`kill(); wait()`. -/
def stop_process (platform : Platform) (b : ProcBehavior) : StopResult :=
  match platform with
  | .win32 =>
    match b.exit_on_term with
    | some t =>
      if t ≤ 15 then
        { signals := [StopStage.sigterm], outcome := StopOutcome.gracefulTerm,
          waited := t, final_wait_confirm := false }
      else
        { signals := [StopStage.sigterm, StopStage.forceKill],
          outcome := StopOutcome.forced, waited := 15, final_wait_confirm := true }
    | none =>
      { signals := [StopStage.sigterm, StopStage.forceKill],
        outcome := StopOutcome.forced, waited := 15, final_wait_confirm := true }
  | .unix =>
    match b.exit_on_int with
    | some t =>
      if t ≤ 15 then
        { signals := [StopStage.sigint], outcome := StopOutcome.gracefulInt,
          waited := t, final_wait_confirm := false }
      else mysqlUnixEscalate b
    | none => mysqlUnixEscalate b

end MySQLProcessThread

/-- The `terminate()` / wait 10 s / `kill(); wait()` sequence shared
verbatim by the AuthServer, WorldServer, Client and WebServer thread
classes. -/
def terminateThenKill (b : ProcBehavior) : StopResult :=
  match b.exit_on_term with
  | some t =>
    if t ≤ 10 then
      { signals := [StopStage.sigterm], outcome := StopOutcome.gracefulTerm,
        waited := t, final_wait_confirm := false }
    else
      { signals := [StopStage.sigterm, StopStage.forceKill],
        outcome := StopOutcome.forced, waited := 10, final_wait_confirm := true }
  | none =>
    { signals := [StopStage.sigterm, StopStage.forceKill],
      outcome := StopOutcome.forced, waited := 10, final_wait_confirm := true }

namespace AuthServerProcessThread

/-- `AuthServerProcessThread.stop_process` (src/ACP.py:1276), for a
tracked process: `terminate()`, wait up to 10 s, then `kill(); wait()` on
timeout. -/
def stop_process (b : ProcBehavior) : StopResult := terminateThenKill b

end AuthServerProcessThread

namespace WorldServerProcessThread

/-- `WorldServerProcessThread.stop_process` (src/ACP.py:1423): same
sequence as the AuthServer thread. -/
def stop_process (b : ProcBehavior) : StopResult := terminateThenKill b

end WorldServerProcessThread

namespace ClientProcessThread

/-- `ClientProcessThread.stop_process` (src/ACP.py:1550): same sequence as
the AuthServer thread. -/
def stop_process (b : ProcBehavior) : StopResult := terminateThenKill b

end ClientProcessThread

namespace WebServerProcessThread

/-- `WebServerProcessThread.stop_process` (src/ACP.py:1630): same sequence
as the AuthServer thread. -/
def stop_process (b : ProcBehavior) : StopResult := terminateThenKill b

end WebServerProcessThread

/-- The stop escalation run for each service's tracked process. -/
def stop_process_for : ServiceKind → Platform → ProcBehavior → StopResult
  | .Database, platform, b => MySQLProcessThread.stop_process platform b
  | .AuthServer, _, b => AuthServerProcessThread.stop_process b
  | .WorldServer, _, b => WorldServerProcessThread.stop_process b
  | .Client, _, b => ClientProcessThread.stop_process b
  | .WebServer, _, b => WebServerProcessThread.stop_process b

/-- The graceful-stop stage order from the spec's ServiceKind policy table
(spec.md section 3), written from the spec's words for comparison with the
source's `stop_process` implementations. -/
def specStageSignals : ServiceKind → Platform → List StopStage
  | .Database, .unix => [StopStage.sigint, StopStage.sigterm, StopStage.forceKill]
  | .Database, .win32 => [StopStage.sigterm, StopStage.forceKill]
  | _, _ => [StopStage.sigterm, StopStage.forceKill]

/-- The total bounded graceful waiting (sum of stage timeouts) from the
spec's policy table, per ServiceKind and platform. -/
def specGracefulWaitTotal : ServiceKind → Platform → Nat
  | .Database, .unix => 15 + 10
  | .Database, .win32 => 15
  | _, _ => 10

/-! ## Stray-process sweeps (`_cleanup_remaining_processes` and startup cleanup) -/

/-- OS commands issued by a sweep, in order.  `taskkill_im` is the
graceful `taskkill /im <image>` (no `/f`); `taskkill_f_im` is the forced
`taskkill /f /im <image>`; `tasklist_check` is the liveness re-check via
`tasklist /FI "IMAGENAME eq <image>"`; `pkill_term` / `pkill_kill` are the
Unix `pkill -TERM -f` / `pkill -KILL -f` calls. -/
inductive OsAct where
  | taskkill_im (image : String)
  | taskkill_f_im (image : String)
  | tasklist_check (image : String)
  | sleep (secs : Nat)
  | pkill_term (pat : String)
  | pkill_kill (pat : String)
deriving DecidableEq, Repr

/-- Facts about the OS a sweep consults: which image names `tasklist`
still reports alive after the settle wait, and whether a subprocess
invocation raises (e.g. the command binary missing). -/
structure SweepEnv where
  alive_after_settle : String → Bool
  command_raises : Bool

/-- The body of `MySQLProcessThread._cleanup_remaining_processes`
(src/ACP.py:1152) before its surrounding try/except: graceful taskkill of
both MySQL images, 2 s settle, tasklist re-check and force-kill of each
image still alive (on Unix: pkill -TERM both, 2 s settle, pkill -KILL
both unconditionally).  A raising subprocess call aborts the body with an
exception. -/
def mysqlCleanupBody (platform : Platform) (env : SweepEnv) : Except String (List OsAct) :=
  if env.command_raises then Except.error "subprocess call failed" else
  match platform with
  | .win32 =>
    Except.ok
      ([OsAct.taskkill_im "mysqld.exe", OsAct.taskkill_im "mysql.exe",
        OsAct.sleep 2, OsAct.tasklist_check "mysqld.exe"] ++
       (if env.alive_after_settle "mysqld.exe" then [OsAct.taskkill_f_im "mysqld.exe"] else []) ++
       [OsAct.tasklist_check "mysql.exe"] ++
       (if env.alive_after_settle "mysql.exe" then [OsAct.taskkill_f_im "mysql.exe"] else []))
  | .unix =>
    Except.ok
      [OsAct.pkill_term "mysqld", OsAct.pkill_term "mysql", OsAct.sleep 2,
       OsAct.pkill_kill "mysqld", OsAct.pkill_kill "mysql"]

namespace MySQLProcessThread

/-- `MySQLProcessThread._cleanup_remaining_processes` (src/ACP.py:1152):
the whole body runs inside try/except that logs and swallows any failure,
so the method never raises to its caller. -/
def _cleanup_remaining_processes (platform : Platform) (env : SweepEnv) :
    Except String (List OsAct) :=
  match mysqlCleanupBody platform env with
  | Except.ok l => Except.ok l
  | Except.error _ => Except.ok []

end MySQLProcessThread

/-- Body of the single-image cleanup shared by the AuthServer and
WorldServer thread classes: graceful taskkill, 2 s settle, tasklist
re-check, force-kill only if still alive (Unix: pkill -TERM, 2 s settle,
unconditional pkill -KILL). -/
def singleImageCleanupBody (image : String) (pat : String) (platform : Platform)
    (env : SweepEnv) : Except String (List OsAct) :=
  if env.command_raises then Except.error "subprocess call failed" else
  match platform with
  | .win32 =>
    Except.ok
      ([OsAct.taskkill_im image, OsAct.sleep 2, OsAct.tasklist_check image] ++
       (if env.alive_after_settle image then [OsAct.taskkill_f_im image] else []))
  | .unix =>
    Except.ok [OsAct.pkill_term pat, OsAct.sleep 2, OsAct.pkill_kill pat]

namespace AuthServerProcessThread

/-- `AuthServerProcessThread._cleanup_remaining_processes`
(src/ACP.py:1312): the authserver.exe sweep, try/except around the whole
body. -/
def _cleanup_remaining_processes (platform : Platform) (env : SweepEnv) :
    Except String (List OsAct) :=
  match singleImageCleanupBody "authserver.exe" "authserver" platform env with
  | Except.ok l => Except.ok l
  | Except.error _ => Except.ok []

end AuthServerProcessThread

namespace WorldServerProcessThread

/-- `WorldServerProcessThread._cleanup_remaining_processes`
(src/ACP.py:1459): the worldserver.exe sweep, try/except around the whole
body. -/
def _cleanup_remaining_processes (platform : Platform) (env : SweepEnv) :
    Except String (List OsAct) :=
  match singleImageCleanupBody "worldserver.exe" "worldserver" platform env with
  | Except.ok l => Except.ok l
  | Except.error _ => Except.ok []

end WorldServerProcessThread

/-- The three Apache-related image names swept by the WebServer cleanup. -/
def apacheImages : List String := ["httpd.exe", "apache.exe", "ApacheMonitor.exe"]

/-- Body of `WebServerProcessThread._cleanup_remaining_processes`
(src/ACP.py:1660).  Each taskkill and the per-image re-check sit in their
own inner try/except (`image_is_running` returns False on failure), so a
raising subprocess call is swallowed per command: on win32 the body never
propagates a command failure. -/
def webCleanupBody (platform : Platform) (env : SweepEnv) : Except String (List OsAct) :=
  match platform with
  | .win32 =>
    Except.ok
      (if env.command_raises then
        (apacheImages.map OsAct.taskkill_im) ++ [OsAct.sleep 2] ++
          (apacheImages.map OsAct.tasklist_check)
      else
        (apacheImages.map OsAct.taskkill_im) ++ [OsAct.sleep 2] ++
          (apacheImages.flatMap (fun image =>
            [OsAct.tasklist_check image] ++
              (if env.alive_after_settle image then [OsAct.taskkill_f_im image] else []))))
  | .unix =>
    if env.command_raises then Except.error "subprocess call failed" else
    Except.ok [OsAct.pkill_term "httpd", OsAct.sleep 2, OsAct.pkill_kill "httpd"]

namespace WebServerProcessThread

/-- `WebServerProcessThread._cleanup_remaining_processes`
(src/ACP.py:1660): inner per-command try/excepts plus an outer try/except,
so the method never raises to its caller. -/
def _cleanup_remaining_processes (platform : Platform) (env : SweepEnv) :
    Except String (List OsAct) :=
  match webCleanupBody platform env with
  | Except.ok l => Except.ok l
  | Except.error _ => Except.ok []

end WebServerProcessThread

/-- The image names swept unconditionally by the startup cleanup
(src/ACP.py:4452). -/
def startupImageNames : List String :=
  ["mysqld.exe", "mysql.exe", "authserver.exe", "worldserver.exe", "wow.exe",
   "httpd.exe", "apache.exe", "ApacheMonitor.exe"]

/-- The `pkill` patterns used by the startup cleanup's Unix branch. -/
def startupPkillPats : List String :=
  ["mysqld", "mysql", "authserver", "worldserver", "wow", "httpd", "apache"]

/-- Body of `MySQLLauncher._startup_cleanup_all_processes`
(src/ACP.py:4442): graceful taskkill of every known image (each in an
inner try/except), a ONE second settle (`time.sleep(1)`), then per image a
tasklist re-check (`is_running` swallows its own failures) and a force
kill only if still alive.  The Unix branch pkill-TERMs every pattern,
sleeps 1 s, then pkill-KILLs every pattern. -/
def startupCleanupBody (platform : Platform) (env : SweepEnv) : Except String (List OsAct) :=
  match platform with
  | .win32 =>
    Except.ok
      (if env.command_raises then
        (startupImageNames.map OsAct.taskkill_im) ++ [OsAct.sleep 1] ++
          (startupImageNames.map OsAct.tasklist_check)
      else
        (startupImageNames.map OsAct.taskkill_im) ++ [OsAct.sleep 1] ++
          (startupImageNames.flatMap (fun image =>
            [OsAct.tasklist_check image] ++
              (if env.alive_after_settle image then [OsAct.taskkill_f_im image] else []))))
  | .unix =>
    if env.command_raises then Except.error "subprocess call failed" else
    Except.ok ((startupPkillPats.map OsAct.pkill_term) ++ [OsAct.sleep 1] ++
      (startupPkillPats.map OsAct.pkill_kill))

/-- `MySQLLauncher._startup_cleanup_all_processes` (src/ACP.py:4442): the
whole body runs inside try/except (best-effort, ignore failures). -/
def _startup_cleanup_all_processes (platform : Platform) (env : SweepEnv) :
    Except String (List OsAct) :=
  match startupCleanupBody platform env with
  | Except.ok l => Except.ok l
  | Except.error _ => Except.ok []

/-- The stray-process sweep the claim describes, written from the spec's
words: every force-kill of an image is preceded in order by a graceful
termination request for that same image and by a 2-second settle wait,
and happens only when the enumeration re-check after the settle still
reports the image alive. -/
def SweepProcedure (settle : Nat) (env : SweepEnv) (l : List OsAct) : Prop :=
  ∀ image, OsAct.taskkill_f_im image ∈ l →
    env.alive_after_settle image = true ∧
    List.Sublist [OsAct.taskkill_im image, OsAct.sleep settle,
      OsAct.tasklist_check image, OsAct.taskkill_f_im image] l

/-! ## Start methods and the countdown display -/

/-- The startup-grace arming a successful `start_*` performs: the interval
in milliseconds passed to `QTimer.start`, and the initial value of the
`*_countdown_seconds` field. -/
structure StartArm where
  timer_ms : Nat
  countdown_init : Nat
deriving DecidableEq, Repr

/-- `MySQLLauncher.start_mysql` (src/ACP.py:3890), reduced to its
supervision effects.  `path_is_file` models `os.path.isfile(path)`.
Rejected (returns `none`, state unchanged) when the path is empty or not a
file, or when the tracked thread is already running; otherwise marks the
entry starting, spawns a fresh thread, arms the 10-second startup timer
and initializes the countdown to 10. -/
def start_mysql (path_is_file : Bool) (st : Launcher) : Launcher × Option StartArm :=
  if st.mysql_path = "" || !path_is_file then (st, none)
  else if threadIsRunning st.process_thread then (st, none)
  else
    ({ st with is_starting := true, status_led := Led.starting,
               start_btn := false, stop_btn := false,
               process_thread := some { running := true, was_manually_stopped := false },
               startup_timer := true, mysql_countdown_seconds := 10 },
     some { timer_ms := 10000, countdown_init := 10 })

/-- `MySQLLauncher.start_authserver` (src/ACP.py:3930): 10-second startup
timer, countdown initialized to 10. -/
def start_authserver (path_is_file : Bool) (st : Launcher) : Launcher × Option StartArm :=
  if st.auth_path = "" || !path_is_file then (st, none)
  else if threadIsRunning st.auth_process_thread then (st, none)
  else
    ({ st with auth_is_starting := true, auth_status_led := Led.starting,
               auth_start_btn := false, auth_stop_btn := false,
               auth_process_thread := some { running := true, was_manually_stopped := false },
               auth_startup_timer := true, auth_countdown_seconds := 10 },
     some { timer_ms := 10000, countdown_init := 10 })

/-- `MySQLLauncher.start_worldserver` (src/ACP.py:3970): 120-second
startup timer, countdown initialized to 120. -/
def start_worldserver (path_is_file : Bool) (st : Launcher) : Launcher × Option StartArm :=
  if st.world_path = "" || !path_is_file then (st, none)
  else if threadIsRunning st.world_process_thread then (st, none)
  else
    ({ st with world_is_starting := true, world_status_led := Led.starting,
               world_start_btn := false, world_stop_btn := false,
               world_process_thread := some { running := true, was_manually_stopped := false },
               world_startup_timer := true, world_countdown_seconds := 120 },
     some { timer_ms := 120000, countdown_init := 120 })

/-- `MySQLLauncher.start_client` (src/ACP.py:4010): 15-second startup
timer, countdown initialized to 15. -/
def start_client (path_is_file : Bool) (st : Launcher) : Launcher × Option StartArm :=
  if st.client_path = "" || !path_is_file then (st, none)
  else if threadIsRunning st.client_process_thread then (st, none)
  else
    ({ st with client_is_starting := true, client_status_led := Led.starting,
               client_start_btn := false, client_stop_btn := false,
               client_process_thread := some { running := true, was_manually_stopped := false },
               client_startup_timer := true, client_countdown_seconds := 15 },
     some { timer_ms := 15000, countdown_init := 15 })

/-- `MySQLLauncher.start_webserver` (src/ACP.py:4124): 10-second startup
timer, countdown initialized to 10. -/
def start_webserver (path_is_file : Bool) (st : Launcher) : Launcher × Option StartArm :=
  if st.web_path = "" || !path_is_file then (st, none)
  else if threadIsRunning st.web_process_thread then (st, none)
  else
    ({ st with web_is_starting := true, web_status_led := Led.starting,
               web_start_btn := false, web_stop_btn := false,
               web_process_thread := some { running := true, was_manually_stopped := false },
               web_startup_timer := true, web_countdown_seconds := 10 },
     some { timer_ms := 10000, countdown_init := 10 })

/-- The per-service start command. -/
def start_service : ServiceKind → Bool → Launcher → Launcher × Option StartArm
  | .Database => start_mysql
  | .AuthServer => start_authserver
  | .WorldServer => start_worldserver
  | .Client => start_client
  | .WebServer => start_webserver

/-- The constant shown for a stopped entry by `update_countdown`
(src/ACP.py:4935): the entry's configured maximum, i.e. its grace
period in seconds. -/
def countdownMax : ServiceKind → Nat
  | .Database => 10
  | .AuthServer => 10
  | .WorldServer => 120
  | .Client => 15
  | .WebServer => 10

/-- One per-entry block of `MySQLLauncher.update_countdown`
(src/ACP.py:4935): while starting with a positive countdown it displays
the countdown and decrements it; while starting at zero it displays 0;
otherwise it displays 0 when the thread is running and the configured
maximum when stopped.  Returns (displayed value, new countdown). -/
def countdown_tick (starting running : Bool) (maxShown c : Nat) : Nat × Nat :=
  if starting && decide (c > 0) then (c, c - 1)
  else if starting && decide (c = 0) then (0, c)
  else if running then (0, c)
  else (maxShown, c)

/-- The five values `update_countdown` writes to the countdown labels. -/
structure CView where
  mysql : Nat
  auth : Nat
  world : Nat
  client : Nat
  web : Nat
deriving DecidableEq, Repr

/-- `MySQLLauncher.update_countdown` (src/ACP.py:4935): applies the
countdown block to each of the five entries (maxima 10, 10, 120, 15, 10),
returning the updated launcher and the displayed values. -/
def update_countdown (st : Launcher) : Launcher × CView :=
  let m := countdown_tick st.is_starting (threadIsRunning st.process_thread)
    10 st.mysql_countdown_seconds
  let a := countdown_tick st.auth_is_starting (threadIsRunning st.auth_process_thread)
    10 st.auth_countdown_seconds
  let w := countdown_tick st.world_is_starting (threadIsRunning st.world_process_thread)
    120 st.world_countdown_seconds
  let c := countdown_tick st.client_is_starting (threadIsRunning st.client_process_thread)
    15 st.client_countdown_seconds
  let v := countdown_tick st.web_is_starting (threadIsRunning st.web_process_thread)
    10 st.web_countdown_seconds
  ({ st with mysql_countdown_seconds := m.2, auth_countdown_seconds := a.2,
             world_countdown_seconds := w.2, client_countdown_seconds := c.2,
             web_countdown_seconds := v.2 },
   { mysql := m.1, auth := a.1, world := w.1, client := c.1, web := v.1 })

/-- The displayed value for one service out of a countdown view. -/
def viewOf : ServiceKind → CView → Nat
  | .Database, v => v.mysql
  | .AuthServer, v => v.auth
  | .WorldServer, v => v.world
  | .Client, v => v.client
  | .WebServer, v => v.web

/-- The launcher after `n` 1-second `update_countdown` ticks. -/
def updateIter (st : Launcher) : Nat → Launcher
  | 0 => st
  | n + 1 => (update_countdown (updateIter st n)).1

/-- The countdown value service `k` displays at the `n`-th 1-second sample
(0-indexed): the view produced by the tick that follows `n` earlier
ticks. -/
def sampleAt (k : ServiceKind) (st : Launcher) (n : Nat) : Nat :=
  viewOf k (update_countdown (updateIter st n)).2

/-! ## Per-service log headers written by the thread `run` methods -/

/-- One header line of a per-service process log, by content kind.  The
`started` line carries the service name together with the
`time.strftime` local timestamp; `executable` carries the configured
path as given; `absPath`, `workingDir`, `fileExists` and `fileSize` are
the debug block computed from `os.path.abspath` and `os.path` checks
(`fileSize none` renders as "N/A"). -/
inductive LogLine where
  | started (service : String)
  | cleared
  | executable (p : String)
  | sep
  | attempting (service : String)
  | absPath (p : String)
  | workingDir (p : String)
  | fileExists (b : Bool)
  | fileSize (sz : Option Nat)
deriving DecidableEq, Repr

/-- Filesystem facts the `run` methods consult when writing the header:
the `os.path.abspath` resolution, whether the file exists, and its size. -/
structure FsEnv where
  abspath : String → String
  path_exists : Bool
  file_size : Nat

/-- The header `MySQLProcessThread.run` (src/ACP.py:978) writes after
truncating `LOG_FILE`: started-at line, log-cleared line, the configured
executable path as given, and a separator.  No absolute-path / exists /
size debug block is written for MySQL. -/
def mysqlRunHeader (mysql_path : String) : List LogLine :=
  [LogLine.started "MySQL", LogLine.cleared, LogLine.executable mysql_path, LogLine.sep]

/-- The header shape shared by the AuthServer, WorldServer, Client and
WebServer `run` methods: started-at, log-cleared, configured path,
separator, then the debug block with the resolved absolute path, working
directory, file-exists boolean, and file size or "N/A". -/
def debugRunHeader (service : String) (env : FsEnv) (path : String) : List LogLine :=
  let p := env.abspath path
  [LogLine.started service, LogLine.cleared, LogLine.executable path, LogLine.sep,
   LogLine.attempting service, LogLine.absPath p, LogLine.workingDir (dirname p),
   LogLine.fileExists env.path_exists,
   LogLine.fileSize (if env.path_exists then some env.file_size else none)]

/-- The log-file header each service's thread `run` method writes after
truncation: `MySQLProcessThread.run` (src/ACP.py:978),
`AuthServerProcessThread.run` (src/ACP.py:1214, service name
"AuthServer"), `WorldServerProcessThread.run` (src/ACP.py:1361,
"WorldServer"), `ClientProcessThread.run` (src/ACP.py:1506, "Client"),
`WebServerProcessThread.run` (src/ACP.py:1586, "Webserver"). -/
def run_header : ServiceKind → FsEnv → String → List LogLine
  | .Database, _, path => mysqlRunHeader path
  | .AuthServer, env, path => debugRunHeader "AuthServer" env path
  | .WorldServer, env, path => debugRunHeader "WorldServer" env path
  | .Client, env, path => debugRunHeader "Client" env path
  | .WebServer, env, path => debugRunHeader "Webserver" env path

/-- The service-name string each `run` method writes. -/
def serviceName : ServiceKind → String
  | .Database => "MySQL"
  | .AuthServer => "AuthServer"
  | .WorldServer => "WorldServer"
  | .Client => "Client"
  | .WebServer => "Webserver"

/-- The header fields the claim requires, in order, written from the
spec's words: service name with local timestamp, resolved absolute
executable path, file-exists boolean, and file size (or "N/A" when
missing). -/
def claimHeaderFields (name : String) (env : FsEnv) (path : String) : List LogLine :=
  [LogLine.started name, LogLine.absPath (env.abspath path),
   LogLine.fileExists env.path_exists,
   LogLine.fileSize (if env.path_exists then some env.file_size else none)]

/-! ## Configuration persistence -/

/-- A JSON scalar as it appears in the config file: the source only
stores strings and one boolean. -/
inductive JVal where
  | s (v : String)
  | b (v : Bool)
deriving DecidableEq, Repr

/-- The launcher-owned configuration fields `save_config` persists. -/
structure Config where
  mysql_path : String
  auth_path : String
  world_path : String
  client_path : String
  web_path : String
  autorestart_enabled : Bool
  heidi_path : String
  keira_path : String
  mpq_editor_path : String
  wdbx_editor_path : String
  spell_editor_path : String
  notepad_plus_path : String
  trinity_creator_path : String
  other_editor1_path : String
  other_editor2_path : String
  other_editor3_path : String
  other_editor4_path : String
  other_editor5_path : String
  other_editor1_text : String
  other_editor2_text : String
  other_editor3_text : String
  other_editor4_text : String
  other_editor5_text : String
deriving DecidableEq, Repr

/-- `MySQLLauncher.save_config` (src/ACP.py:3738): the JSON object written
to `CONFIG_FILE`, as the ordered key/value pairs of `json.dump`. -/
def save_config (c : Config) : List (String × JVal) :=
  [("mysql_path", JVal.s c.mysql_path),
   ("auth_path", JVal.s c.auth_path),
   ("world_path", JVal.s c.world_path),
   ("client_path", JVal.s c.client_path),
   ("web_path", JVal.s c.web_path),
   ("autorestart_enabled", JVal.b c.autorestart_enabled),
   ("heidi_path", JVal.s c.heidi_path),
   ("keira_path", JVal.s c.keira_path),
   ("mpq_editor_path", JVal.s c.mpq_editor_path),
   ("wdbx_editor_path", JVal.s c.wdbx_editor_path),
   ("spell_editor_path", JVal.s c.spell_editor_path),
   ("notepad_plus_path", JVal.s c.notepad_plus_path),
   ("trinity_creator_path", JVal.s c.trinity_creator_path),
   ("other_editor1_path", JVal.s c.other_editor1_path),
   ("other_editor2_path", JVal.s c.other_editor2_path),
   ("other_editor3_path", JVal.s c.other_editor3_path),
   ("other_editor4_path", JVal.s c.other_editor4_path),
   ("other_editor5_path", JVal.s c.other_editor5_path),
   ("other_editor1_text", JVal.s c.other_editor1_text),
   ("other_editor2_text", JVal.s c.other_editor2_text),
   ("other_editor3_text", JVal.s c.other_editor3_text),
   ("other_editor4_text", JVal.s c.other_editor4_text),
   ("other_editor5_text", JVal.s c.other_editor5_text)]

/-- `data.get(key, default)` for a string-valued key of the parsed JSON
object. -/
def jgetS (m : List (String × JVal)) (key : String) (dflt : String) : String :=
  match m.find? (fun kv => kv.1 = key) with
  | some (_, JVal.s v) => v
  | some (_, JVal.b _) => dflt
  | none => dflt

/-- `data.get(key, default)` for a boolean-valued key of the parsed JSON
object. -/
def jgetB (m : List (String × JVal)) (key : String) (dflt : Bool) : Bool :=
  match m.find? (fun kv => kv.1 = key) with
  | some (_, JVal.b v) => v
  | some (_, JVal.s _) => dflt
  | none => dflt

/-- `MySQLLauncher.load_config` (src/ACP.py:3654): when `CONFIG_FILE`
exists and parses (`some data`), each field is read with
`data.get(key, default)` — empty-string defaults for paths, `False` for
the autorestart flag, "Your app" for the other-editor button texts.  When
the file is missing (`none`), the paths reset to empty and the flag to
`False`. -/
def load_config (file : Option (List (String × JVal))) : Config :=
  match file with
  | some data =>
    { mysql_path := jgetS data "mysql_path" "",
      auth_path := jgetS data "auth_path" "",
      world_path := jgetS data "world_path" "",
      client_path := jgetS data "client_path" "",
      web_path := jgetS data "web_path" "",
      autorestart_enabled := jgetB data "autorestart_enabled" false,
      heidi_path := jgetS data "heidi_path" "",
      keira_path := jgetS data "keira_path" "",
      mpq_editor_path := jgetS data "mpq_editor_path" "",
      wdbx_editor_path := jgetS data "wdbx_editor_path" "",
      spell_editor_path := jgetS data "spell_editor_path" "",
      notepad_plus_path := jgetS data "notepad_plus_path" "",
      trinity_creator_path := jgetS data "trinity_creator_path" "",
      other_editor1_path := jgetS data "other_editor1_path" "",
      other_editor2_path := jgetS data "other_editor2_path" "",
      other_editor3_path := jgetS data "other_editor3_path" "",
      other_editor4_path := jgetS data "other_editor4_path" "",
      other_editor5_path := jgetS data "other_editor5_path" "",
      other_editor1_text := jgetS data "other_editor1_text" "Your app",
      other_editor2_text := jgetS data "other_editor2_text" "Your app",
      other_editor3_text := jgetS data "other_editor3_text" "Your app",
      other_editor4_text := jgetS data "other_editor4_text" "Your app",
      other_editor5_text := jgetS data "other_editor5_text" "Your app" }
  | none =>
    { mysql_path := "", auth_path := "", world_path := "", client_path := "",
      web_path := "", autorestart_enabled := false,
      heidi_path := "", keira_path := "", mpq_editor_path := "",
      wdbx_editor_path := "", spell_editor_path := "", notepad_plus_path := "",
      trinity_creator_path := "",
      other_editor1_path := "", other_editor2_path := "", other_editor3_path := "",
      other_editor4_path := "", other_editor5_path := "",
      other_editor1_text := "Your app", other_editor2_text := "Your app",
      other_editor3_text := "Your app", other_editor4_text := "Your app",
      other_editor5_text := "Your app" }

/-- A launcher with every entry stopped, nothing configured and autorestart
off: the window's state right after initialization.  Used as the base point
for concrete evaluations. -/
def idleLauncher : Launcher :=
  { autorestart_enabled := false,
    mysql_path := "", auth_path := "", world_path := "", client_path := "",
    web_path := "",
    process_thread := none, auth_process_thread := none,
    world_process_thread := none, client_process_thread := none,
    web_process_thread := none,
    is_starting := false, auth_is_starting := false, world_is_starting := false,
    client_is_starting := false, web_is_starting := false,
    startup_timer := false, auth_startup_timer := false,
    world_startup_timer := false, client_startup_timer := false,
    web_startup_timer := false,
    status_led := Led.stopped, auth_status_led := Led.stopped,
    world_status_led := Led.stopped, client_status_led := Led.stopped,
    web_status_led := Led.stopped,
    start_btn := true, stop_btn := false, auth_start_btn := true,
    auth_stop_btn := false, world_start_btn := true, world_stop_btn := false,
    client_start_btn := true, client_stop_btn := false, web_start_btn := true,
    web_stop_btn := false,
    mysql_countdown_seconds := 10, auth_countdown_seconds := 10,
    world_countdown_seconds := 120, client_countdown_seconds := 15,
    web_countdown_seconds := 10 }

/-! ## C1: scope of the autorestart trigger -/

/-- C1 counterexample: with autorestart enabled and a tracked MySQL thread
that was not manually stopped, the Database entry's process-finished
handler invokes `trigger_autorestart`, although the exiting entry is not
the AuthServer entry — refuting "no other service's process-finished event
invokes trigger_autorestart". -/
theorem C1_counterexample :
    (on_finished ServiceKind.Database
      { idleLauncher with
          autorestart_enabled := true,
          process_thread := some { running := true, was_manually_stopped := false } }).2
      = true ∧
    ServiceKind.Database ≠ ServiceKind.AuthServer := by
  decide

/-- C1 (amended): an exit-detection event invokes the autorestart helper
only for the Database, AuthServer and WorldServer entries — the Client and
WebServer handlers never do — and every launch the helper performs is the
single coarse-grained action of running the Start-AutoRestart script
convention next to the AuthServer executable, whichever entry exited. -/
theorem C1_autorestart_scope (k : ServiceKind) (st : Launcher)
    (h : (on_finished k st).2 = true) :
    (k = ServiceKind.Database ∨ k = ServiceKind.AuthServer ∨
      k = ServiceKind.WorldServer) ∧
    (∀ env a, autorestartLaunches k st env = some a →
      a = AutoLaunch.detachedScript (dirname st.auth_path)
            (dirname st.auth_path ++ "/Start-AutoRestart.bat")) := by
  constructor
  · cases k <;>
      simp_all [on_finished, on_client_process_finished, on_web_process_finished]
  · intro env a ha
    unfold autorestartLaunches at ha
    rw [h] at ha
    simp only [if_true] at ha
    unfold trigger_autorestart at ha
    split at ha
    · exact absurd ha (by simp)
    · split at ha
      · split at ha
        · exact absurd ha (by simp)
        · simpa using ha.symm
      · exact absurd ha (by simp)

/-- Witness for C1 (amended), at the Database entry of a concrete launcher
with autorestart enabled, a configured AuthServer path and a tracked,
not-manually-stopped MySQL thread. -/
theorem C1_autorestart_scope_witness :
    (ServiceKind.Database = ServiceKind.Database ∨
      ServiceKind.Database = ServiceKind.AuthServer ∨
      ServiceKind.Database = ServiceKind.WorldServer) ∧
    (∀ env a,
      autorestartLaunches ServiceKind.Database
        { idleLauncher with
            autorestart_enabled := true,
            auth_path := "C:/ac/authserver.exe",
            process_thread := some { running := true, was_manually_stopped := false } }
        env = some a →
      a = AutoLaunch.detachedScript (dirname "C:/ac/authserver.exe")
            (dirname "C:/ac/authserver.exe" ++ "/Start-AutoRestart.bat")) :=
  C1_autorestart_scope ServiceKind.Database
    { idleLauncher with
        autorestart_enabled := true,
        auth_path := "C:/ac/authserver.exe",
        process_thread := some { running := true, was_manually_stopped := false } }
    (by decide)

/-! ## C2: manual-stop flag ordering and autorestart suppression -/

/-- C2 counterexample: stopping a running Client entry never sets
`was_manually_stopped` — the stop trace runs the stop sequence (and the
unconditional wow.exe force-kill) without the flag assignment, and the
flag on the tracked thread stays false. -/
theorem C2_counterexample :
    (stop_client Platform.win32
        { idleLauncher with
            client_process_thread :=
              some { running := true, was_manually_stopped := false } }).2
      = [StopAct.stop_process_call ServiceKind.Client,
         StopAct.taskkill_force "wow.exe"] ∧
    ¬ actBefore (StopAct.set_manual_flag ServiceKind.Client)
        (StopAct.stop_process_call ServiceKind.Client)
        (stop_client Platform.win32
          { idleLauncher with
              client_process_thread :=
                some { running := true, was_manually_stopped := false } }).2 ∧
    threadManuallyStopped
      (threadOf ServiceKind.Client
        (stop_client Platform.win32
          { idleLauncher with
              client_process_thread :=
                some { running := true, was_manually_stopped := false } }).1)
      = false := by
  decide

/-- C2 (amended): for the Database, AuthServer and WorldServer entries,
stopping a running entry sets `was_manually_stopped` before the stop
sequence is initiated and leaves the tracked thread flagged; and for
every entry, the process-finished path never invokes the autorestart
trigger when the flag is set, for every value of `autorestart_enabled`.
(The Client and WebServer stop paths set no flag, but their finished
handlers never invoke the trigger at all.) -/
theorem C2_manual_stop_before_termination (p : Platform) (k : ServiceKind)
    (st : Launcher)
    (hk : k = ServiceKind.Database ∨ k = ServiceKind.AuthServer ∨
      k = ServiceKind.WorldServer)
    (hr : threadIsRunning (threadOf k st) = true) :
    actBefore (StopAct.set_manual_flag k) (StopAct.stop_process_call k)
      (stop_service p k st).2 ∧
    threadManuallyStopped (threadOf k (stop_service p k st).1) = true ∧
    (∀ k2 st2 b, threadManuallyStopped (threadOf k2 st2) = true →
      (on_finished k2 { st2 with autorestart_enabled := b }).2 = false) := by
  refine ⟨?_, ?_, ?_⟩
  · rcases hk with rfl | rfl | rfl <;>
      simp only [stop_service, stop_mysql, stop_authserver, stop_worldserver,
        threadOf] at hr ⊢ <;>
      rw [hr] <;> simp only [Bool.not_true, Bool.false_eq_true, if_false] <;>
      split <;> decide
  · rcases hk with rfl | rfl | rfl <;>
      simp only [stop_service, stop_mysql, stop_authserver, stop_worldserver,
        threadOf] at hr ⊢ <;>
      rw [hr] <;>
      simp only [Bool.not_true, Bool.false_eq_true, if_false] <;>
      [cases h : st.process_thread; cases h : st.auth_process_thread;
       cases h : st.world_process_thread] <;>
      simp_all [threadIsRunning, stopThread, setManualFlag, threadManuallyStopped]
  · intro k2 st2 b h
    cases k2 <;>
      simp_all [on_finished, on_process_finished, on_auth_process_finished,
        on_world_process_finished, on_client_process_finished,
        on_web_process_finished, threadOf]

/-- Witness for C2 (amended): the Database entry of a concrete launcher
with a running, unflagged MySQL thread. -/
theorem C2_manual_stop_before_termination_witness :
    actBefore (StopAct.set_manual_flag ServiceKind.Database)
      (StopAct.stop_process_call ServiceKind.Database)
      (stop_service Platform.win32 ServiceKind.Database
        { idleLauncher with
            process_thread :=
              some { running := true, was_manually_stopped := false } }).2 ∧
    threadManuallyStopped
      (threadOf ServiceKind.Database
        (stop_service Platform.win32 ServiceKind.Database
          { idleLauncher with
              process_thread :=
                some { running := true, was_manually_stopped := false } }).1)
      = true ∧
    (∀ k2 st2 b, threadManuallyStopped (threadOf k2 st2) = true →
      (on_finished k2 { st2 with autorestart_enabled := b }).2 = false) :=
  C2_manual_stop_before_termination Platform.win32 ServiceKind.Database
    { idleLauncher with
        process_thread := some { running := true, was_manually_stopped := false } }
    (Or.inl rfl) (by decide)

/-! ## C3: autorestart attempts on unexpected exit -/

/-- C3 counterexample: an unexpected Client exit with autorestart enabled,
a tracked thread and no manual stop produces zero invocations of the
autorestart helper, not exactly one. -/
theorem C3_counterexample :
    ({ idleLauncher with
         autorestart_enabled := true,
         client_process_thread :=
           some { running := true, was_manually_stopped := false } } : Launcher).autorestart_enabled
      = true ∧
    threadManuallyStopped
      (threadOf ServiceKind.Client
        { idleLauncher with
            autorestart_enabled := true,
            client_process_thread :=
              some { running := true, was_manually_stopped := false } })
      = false ∧
    autorestartInvocations ServiceKind.Client
      { idleLauncher with
          autorestart_enabled := true,
          client_process_thread :=
            some { running := true, was_manually_stopped := false } }
      ≠ 1 := by
  decide

/-- C3 (amended): for the Database, AuthServer and WorldServer entries, an
unexpected exit (tracked thread, `manually_stopped` false) with
`autorestart_enabled` true invokes the autorestart helper exactly once;
the Client and WebServer handlers invoke it zero times; and the helper's
launch is performed (detached) only when the AuthServer path is configured
and the restart script exists, with a raising `Popen` swallowed (no
launch, no exception). -/
theorem C3_unexpected_exit_autorestart (k : ServiceKind) (st : Launcher)
    (hk : k = ServiceKind.Database ∨ k = ServiceKind.AuthServer ∨
      k = ServiceKind.WorldServer)
    (he : st.autorestart_enabled = true)
    (ht : (threadOf k st).isSome = true)
    (hm : threadManuallyStopped (threadOf k st) = false) :
    autorestartInvocations k st = 1 ∧
    (∀ env, autorestartLaunches k st env = trigger_autorestart st env) ∧
    (∀ env a, trigger_autorestart st env = some a →
      st.auth_path ≠ "" ∧ env.restart_script_exists = true ∧
      env.popen_raises = false) ∧
    (∀ st2 : Launcher, autorestartInvocations ServiceKind.Client st2 = 0 ∧
      autorestartInvocations ServiceKind.WebServer st2 = 0) := by
  have htrig : (on_finished k st).2 = true := by
    rcases hk with rfl | rfl | rfl <;>
      simp_all [on_finished, on_process_finished, on_auth_process_finished,
        on_world_process_finished]
  refine ⟨?_, ?_, ?_, ?_⟩
  · simp [autorestartInvocations, htrig]
  · intro env
    simp [autorestartLaunches, htrig]
  · intro env a ha
    unfold trigger_autorestart at ha
    rw [he] at ha
    by_cases h2 : st.auth_path = ""
    · simp [h2] at ha
    · refine ⟨h2, ?_, ?_⟩
      · by_contra h3
        simp only [Bool.not_eq_true] at h3
        simp [h2, h3] at ha
      · by_contra h4
        simp only [Bool.not_eq_false] at h4
        simp [h2, h4] at ha
  · intro st2
    constructor <;>
      simp [autorestartInvocations, on_finished, on_client_process_finished,
        on_web_process_finished]

/-- Witness for C3 (amended): the AuthServer entry of a concrete launcher
with autorestart enabled and a tracked, unflagged AuthServer thread. -/
theorem C3_unexpected_exit_autorestart_witness :
    autorestartInvocations ServiceKind.AuthServer
      { idleLauncher with
          autorestart_enabled := true,
          auth_process_thread :=
            some { running := true, was_manually_stopped := false } }
      = 1 ∧
    (∀ env,
      autorestartLaunches ServiceKind.AuthServer
        { idleLauncher with
            autorestart_enabled := true,
            auth_process_thread :=
              some { running := true, was_manually_stopped := false } } env
        = trigger_autorestart
            { idleLauncher with
                autorestart_enabled := true,
                auth_process_thread :=
                  some { running := true, was_manually_stopped := false } } env) ∧
    (∀ env a,
      trigger_autorestart
        { idleLauncher with
            autorestart_enabled := true,
            auth_process_thread :=
              some { running := true, was_manually_stopped := false } } env
        = some a →
      ({ idleLauncher with
           autorestart_enabled := true,
           auth_process_thread :=
             some { running := true, was_manually_stopped := false } } : Launcher).auth_path
        ≠ "" ∧
      env.restart_script_exists = true ∧ env.popen_raises = false) ∧
    (∀ st2 : Launcher, autorestartInvocations ServiceKind.Client st2 = 0 ∧
      autorestartInvocations ServiceKind.WebServer st2 = 0) :=
  C3_unexpected_exit_autorestart ServiceKind.AuthServer
    { idleLauncher with
        autorestart_enabled := true,
        auth_process_thread :=
          some { running := true, was_manually_stopped := false } }
    (Or.inr (Or.inl rfl)) (by decide) (by decide) (by decide)

/-! ## C4: stopping an entry with nothing tracked -/

/-- Whether a stop trace surfaces any user-facing message (the
NotRunningError surrogate: a `QMessageBox` "... is not running!" popup). -/
def surfacesMessage : List StopAct → Bool
  | [] => false
  | StopAct.message _ :: _ => true
  | _ :: rest => surfacesMessage rest

/-- C4 counterexample: stopping the Client entry with nothing tracked does
not surface any not-running message; instead it issues the unconditional
wow.exe force-kill. -/
theorem C4_counterexample :
    (stop_client Platform.win32 idleLauncher).2
      = [StopAct.taskkill_force "wow.exe"] ∧
    surfacesMessage (stop_client Platform.win32 idleLauncher).2 = false := by
  decide

/-- C4 (amended): for the Database, AuthServer and WorldServer entries,
calling stop with no tracked running process is a no-op that surfaces the
not-running message and changes no launcher state; the WebServer stop
instead silently runs the Apache cleanup sweep, and the Client stop (on
win32) silently force-kills wow.exe — neither surfaces a message. -/
theorem C4_stop_when_stopped (p : Platform) (k : ServiceKind) (st : Launcher)
    (hk : k = ServiceKind.Database ∨ k = ServiceKind.AuthServer ∨
      k = ServiceKind.WorldServer)
    (hr : threadIsRunning (threadOf k st) = false) :
    ((stop_service p k st).1 = st ∧
      ∃ s, (stop_service p k st).2 = [StopAct.message s]) ∧
    (∀ st2 : Launcher, threadIsRunning st2.web_process_thread = false →
      StopAct.cleanup_sweep ServiceKind.WebServer ∈ (stop_webserver st2).2 ∧
      surfacesMessage (stop_webserver st2).2 = false) ∧
    (∀ st2 : Launcher, threadIsRunning st2.client_process_thread = false →
      StopAct.taskkill_force "wow.exe" ∈ (stop_client Platform.win32 st2).2 ∧
      surfacesMessage (stop_client Platform.win32 st2).2 = false) := by
  refine ⟨?_, ?_, ?_⟩
  · rcases hk with rfl | rfl | rfl <;>
      simp_all [stop_service, stop_mysql, stop_authserver, stop_worldserver,
        threadOf]
  · intro st2 h2
    rw [stop_webserver]
    simp only [h2, Bool.false_eq_true, if_false]
    cases ht : st2.web_startup_timer <;> simp [surfacesMessage]
  · intro st2 h2
    rw [stop_client]
    simp only [h2, Bool.false_eq_true, if_false]
    cases ht : st2.client_startup_timer <;> simp [surfacesMessage]

/-- Witness for C4 (amended): the WorldServer entry of the idle launcher. -/
theorem C4_stop_when_stopped_witness :
    ((stop_service Platform.win32 ServiceKind.WorldServer idleLauncher).1
        = idleLauncher ∧
      ∃ s, (stop_service Platform.win32 ServiceKind.WorldServer idleLauncher).2
        = [StopAct.message s]) ∧
    (∀ st2 : Launcher, threadIsRunning st2.web_process_thread = false →
      StopAct.cleanup_sweep ServiceKind.WebServer ∈ (stop_webserver st2).2 ∧
      surfacesMessage (stop_webserver st2).2 = false) ∧
    (∀ st2 : Launcher, threadIsRunning st2.client_process_thread = false →
      StopAct.taskkill_force "wow.exe" ∈ (stop_client Platform.win32 st2).2 ∧
      surfacesMessage (stop_client Platform.win32 st2).2 = false) :=
  C4_stop_when_stopped Platform.win32 ServiceKind.WorldServer idleLauncher
    (Or.inr (Or.inr rfl)) (by decide)

/-! ## C5: deterministic, exhaustive stop escalation -/

/-- C5: for every ServiceKind and platform, against a tracked process that
never exits in response to any graceful signal, `stop_process` sends
exactly the configured stage signals in order, spends exactly the sum of
the configured stage timeouts in bounded waits (≤ 15 + 10 seconds, the
Database bound), ends in the unconditional force-kill with an unbounded
wait for exit confirmation, and — for any process behaviour whatsoever —
never waits in bounded waits longer than the configured stage-timeout
sum. -/
theorem C5_stop_escalation (k : ServiceKind) (p : Platform) (b : ProcBehavior)
    (hint : b.exit_on_int = none) (hterm : b.exit_on_term = none) :
    (stop_process_for k p b).signals = specStageSignals k p ∧
    (stop_process_for k p b).outcome = StopOutcome.forced ∧
    (stop_process_for k p b).final_wait_confirm = true ∧
    (stop_process_for k p b).waited = specGracefulWaitTotal k p ∧
    (stop_process_for k p b).waited ≤ 15 + 10 ∧
    (∀ b2 : ProcBehavior,
      (stop_process_for k p b2).waited ≤ specGracefulWaitTotal k p) := by
  have hb : b = { exit_on_int := none, exit_on_term := none } := by
    obtain ⟨bi, bt⟩ := b
    simp_all
  subst hb
  refine ⟨?_, ?_, ?_, ?_, ?_, ?_⟩
  · cases k <;> cases p <;> decide
  · cases k <;> cases p <;> decide
  · cases k <;> cases p <;> decide
  · cases k <;> cases p <;> decide
  · cases k <;> cases p <;> decide
  · intro b2
    obtain ⟨b2i, b2t⟩ := b2
    cases k <;> cases p <;> cases b2i <;> cases b2t <;>
      simp only [stop_process_for, MySQLProcessThread.stop_process,
        AuthServerProcessThread.stop_process, WorldServerProcessThread.stop_process,
        ClientProcessThread.stop_process, WebServerProcessThread.stop_process,
        mysqlUnixEscalate, terminateThenKill, specGracefulWaitTotal] <;>
      (repeat' split) <;>
      (first | omega | (simp_all; omega) | simp_all)

/-- Witness for C5: the Database escalation on Unix against a process that
ignores every graceful signal. -/
theorem C5_stop_escalation_witness :
    (stop_process_for ServiceKind.Database Platform.unix
        { exit_on_int := none, exit_on_term := none }).signals
      = specStageSignals ServiceKind.Database Platform.unix ∧
    (stop_process_for ServiceKind.Database Platform.unix
        { exit_on_int := none, exit_on_term := none }).outcome
      = StopOutcome.forced ∧
    (stop_process_for ServiceKind.Database Platform.unix
        { exit_on_int := none, exit_on_term := none }).final_wait_confirm = true ∧
    (stop_process_for ServiceKind.Database Platform.unix
        { exit_on_int := none, exit_on_term := none }).waited
      = specGracefulWaitTotal ServiceKind.Database Platform.unix ∧
    (stop_process_for ServiceKind.Database Platform.unix
        { exit_on_int := none, exit_on_term := none }).waited ≤ 15 + 10 ∧
    (∀ b2 : ProcBehavior,
      (stop_process_for ServiceKind.Database Platform.unix b2).waited
        ≤ specGracefulWaitTotal ServiceKind.Database Platform.unix) :=
  C5_stop_escalation ServiceKind.Database Platform.unix
    { exit_on_int := none, exit_on_term := none } rfl rfl

/-! ## C6: stray-process sweep procedure -/

/-- Whether a sweep returned without raising. -/
def sweepOk : Except String (List OsAct) → Bool
  | Except.ok _ => true
  | Except.error _ => false

/-- The try/except wrapper of the cleanup methods always returns ok. -/
theorem sweepOk_catch (e : Except String (List OsAct)) :
    sweepOk (match e with
      | Except.ok l => Except.ok l
      | Except.error _ => Except.ok ([] : List OsAct)) = true := by
  cases e <;> rfl

/-- The canonical win32 sweep trace over a list of image names: graceful
taskkill of every image, the settle sleep, then per image a tasklist
re-check and a force-kill only when still alive. -/
def sweepPattern (names : List String) (settle : Nat) (env : SweepEnv) : List OsAct :=
  (names.map OsAct.taskkill_im) ++ [OsAct.sleep settle] ++
    (names.flatMap (fun image =>
      [OsAct.tasklist_check image] ++
        (if env.alive_after_settle image then [OsAct.taskkill_f_im image] else [])))

/-- Every trace of the canonical shape satisfies the sweep procedure. -/
theorem sweepPattern_procedure (names : List String) (settle : Nat) (env : SweepEnv) :
    SweepProcedure settle env (sweepPattern names settle env) := by
  intro image hmem
  have hkey : image ∈ names ∧ env.alive_after_settle image = true := by
    unfold sweepPattern at hmem
    simp only [List.mem_append, List.mem_map, List.mem_flatMap,
      List.mem_singleton] at hmem
    rcases hmem with (⟨x, _, hx⟩ | hx) | ⟨x, hxn, hxb⟩
    · cases hx
    · cases hx
    · rcases hxb with hx | hx
      · cases hx
      · by_cases ha : env.alive_after_settle x = true
        · simp only [if_pos ha, List.mem_singleton] at hx
          injection hx with h
          subst h
          exact ⟨hxn, ha⟩
        · simp only [if_neg ha, List.not_mem_nil] at hx
  obtain ⟨himg, halive⟩ := hkey
  refine ⟨halive, ?_⟩
  obtain ⟨s, t, hnames⟩ := List.append_of_mem himg
  subst hnames
  unfold sweepPattern
  rw [List.append_assoc]
  have h1 : [OsAct.taskkill_im image].Sublist
      ((s ++ image :: t).map OsAct.taskkill_im) :=
    List.singleton_sublist.mpr (List.mem_map_of_mem _ (by simp))
  have h3 : [OsAct.tasklist_check image, OsAct.taskkill_f_im image].Sublist
      ((s ++ image :: t).flatMap (fun img =>
        [OsAct.tasklist_check img] ++
          (if env.alive_after_settle img then [OsAct.taskkill_f_im img] else []))) := by
    rw [List.flatMap_append]
    refine List.Sublist.trans ?_ (List.sublist_append_right _ _)
    rw [List.flatMap_cons]
    refine List.Sublist.trans ?_ (List.sublist_append_left _ _)
    rw [if_pos halive]
    exact List.Sublist.refl _
  have hsplit : ([OsAct.taskkill_im image] ++ ([OsAct.sleep settle] ++
      [OsAct.tasklist_check image, OsAct.taskkill_f_im image]))
      = [OsAct.taskkill_im image, OsAct.sleep settle,
         OsAct.tasklist_check image, OsAct.taskkill_f_im image] := rfl
  rw [← hsplit]
  exact List.Sublist.append h1 (List.Sublist.append (List.Sublist.refl _) h3)

/-- A graceful-plus-recheck scan (no force stage at all) trivially
satisfies the sweep procedure: it contains no force-kill. -/
theorem no_force_in_scan (names : List String) (settle : Nat) (image : String) :
    OsAct.taskkill_f_im image ∉
      (names.map OsAct.taskkill_im) ++ [OsAct.sleep settle] ++
        (names.map OsAct.tasklist_check) := by
  simp

/-- C6 counterexample data: an environment where every graceful request
succeeds and nothing survives the settle. -/
def startupQuietEnv : SweepEnv := SweepEnv.mk (fun _ => false) false

/-- The startup sweep's action trace under `startupQuietEnv`. -/
def startupQuietActs : List OsAct :=
  match _startup_cleanup_all_processes Platform.win32 startupQuietEnv with
  | Except.ok l => l
  | Except.error _ => []

/-- C6 counterexample: the startup cleanup — one of the sweeps the claim
covers — waits a 1-second settle, not the claimed 2-second settle. -/
theorem C6_counterexample :
    _startup_cleanup_all_processes Platform.win32 startupQuietEnv
      = Except.ok startupQuietActs ∧
    OsAct.sleep 1 ∈ startupQuietActs ∧
    OsAct.sleep 2 ∉ startupQuietActs := by
  refine ⟨rfl, by decide, by decide⟩

/-- C6 (amended): no sweep ever raises to its caller, and on win32 every
per-service cleanup sweep follows the graceful-termination → 2-second
settle → enumeration re-check → force-kill-only-if-alive procedure, while
the startup cleanup follows the same procedure with a 1-second settle.
(The Client stop path instead force-kills wow.exe directly, and the Unix
branches force-kill unconditionally after the settle; see
`stop_client`.) -/
theorem C6_sweeps (p : Platform) (env : SweepEnv) :
    sweepOk (MySQLProcessThread._cleanup_remaining_processes p env) = true ∧
    sweepOk (AuthServerProcessThread._cleanup_remaining_processes p env) = true ∧
    sweepOk (WorldServerProcessThread._cleanup_remaining_processes p env) = true ∧
    sweepOk (WebServerProcessThread._cleanup_remaining_processes p env) = true ∧
    sweepOk (_startup_cleanup_all_processes p env) = true ∧
    (∀ l, MySQLProcessThread._cleanup_remaining_processes Platform.win32 env
        = Except.ok l → SweepProcedure 2 env l) ∧
    (∀ l, AuthServerProcessThread._cleanup_remaining_processes Platform.win32 env
        = Except.ok l → SweepProcedure 2 env l) ∧
    (∀ l, WorldServerProcessThread._cleanup_remaining_processes Platform.win32 env
        = Except.ok l → SweepProcedure 2 env l) ∧
    (∀ l, WebServerProcessThread._cleanup_remaining_processes Platform.win32 env
        = Except.ok l → SweepProcedure 2 env l) ∧
    (∀ l, _startup_cleanup_all_processes Platform.win32 env = Except.ok l →
        SweepProcedure 1 env l) := by
  refine ⟨?_, ?_, ?_, ?_, ?_, ?_, ?_, ?_, ?_, ?_⟩
  · exact sweepOk_catch _
  · exact sweepOk_catch _
  · exact sweepOk_catch _
  · exact sweepOk_catch _
  · exact sweepOk_catch _
  · intro l h
    unfold MySQLProcessThread._cleanup_remaining_processes at h
    cases hc : env.command_raises
    · rw [mysqlCleanupBody] at h
      rw [hc] at h
      simp only [Bool.false_eq_true, if_false, Except.ok.injEq] at h
      subst h
      have heq : ([OsAct.taskkill_im "mysqld.exe", OsAct.taskkill_im "mysql.exe",
          OsAct.sleep 2, OsAct.tasklist_check "mysqld.exe"] ++
         (if env.alive_after_settle "mysqld.exe" then [OsAct.taskkill_f_im "mysqld.exe"] else []) ++
         [OsAct.tasklist_check "mysql.exe"] ++
         (if env.alive_after_settle "mysql.exe" then [OsAct.taskkill_f_im "mysql.exe"] else []))
          = sweepPattern ["mysqld.exe", "mysql.exe"] 2 env := by
        simp [sweepPattern]
      rw [heq]
      exact sweepPattern_procedure _ _ _
    · rw [mysqlCleanupBody] at h
      rw [hc] at h
      simp only [if_true, Except.ok.injEq] at h
      intro image hmem
      rw [← h] at hmem
      cases hmem
  · intro l h
    unfold AuthServerProcessThread._cleanup_remaining_processes at h
    cases hc : env.command_raises
    · rw [singleImageCleanupBody] at h
      rw [hc] at h
      simp only [Bool.false_eq_true, if_false, Except.ok.injEq] at h
      subst h
      have heq : ([OsAct.taskkill_im "authserver.exe", OsAct.sleep 2,
          OsAct.tasklist_check "authserver.exe"] ++
         (if env.alive_after_settle "authserver.exe" then [OsAct.taskkill_f_im "authserver.exe"] else []))
          = sweepPattern ["authserver.exe"] 2 env := by
        simp [sweepPattern]
      rw [heq]
      exact sweepPattern_procedure _ _ _
    · rw [singleImageCleanupBody] at h
      rw [hc] at h
      simp only [if_true, Except.ok.injEq] at h
      intro image hmem
      rw [← h] at hmem
      cases hmem
  · intro l h
    unfold WorldServerProcessThread._cleanup_remaining_processes at h
    cases hc : env.command_raises
    · rw [singleImageCleanupBody] at h
      rw [hc] at h
      simp only [Bool.false_eq_true, if_false, Except.ok.injEq] at h
      subst h
      have heq : ([OsAct.taskkill_im "worldserver.exe", OsAct.sleep 2,
          OsAct.tasklist_check "worldserver.exe"] ++
         (if env.alive_after_settle "worldserver.exe" then [OsAct.taskkill_f_im "worldserver.exe"] else []))
          = sweepPattern ["worldserver.exe"] 2 env := by
        simp [sweepPattern]
      rw [heq]
      exact sweepPattern_procedure _ _ _
    · rw [singleImageCleanupBody] at h
      rw [hc] at h
      simp only [if_true, Except.ok.injEq] at h
      intro image hmem
      rw [← h] at hmem
      cases hmem
  · intro l h
    unfold WebServerProcessThread._cleanup_remaining_processes at h
    rw [webCleanupBody] at h
    cases hc : env.command_raises
    · rw [hc] at h
      simp only [Bool.false_eq_true, if_false, Except.ok.injEq] at h
      subst h
      exact sweepPattern_procedure apacheImages 2 env
    · rw [hc] at h
      simp only [if_true, Except.ok.injEq] at h
      subst h
      intro image hmem
      exact absurd hmem (no_force_in_scan apacheImages 2 image)
  · intro l h
    unfold _startup_cleanup_all_processes at h
    rw [startupCleanupBody] at h
    cases hc : env.command_raises
    · rw [hc] at h
      simp only [Bool.false_eq_true, if_false, Except.ok.injEq] at h
      subst h
      exact sweepPattern_procedure startupImageNames 1 env
    · rw [hc] at h
      simp only [if_true, Except.ok.injEq] at h
      subst h
      intro image hmem
      exact absurd hmem (no_force_in_scan startupImageNames 1 image)

/-- Concrete environment for the C6 witness: mysqld.exe survives the
settle, nothing raises. -/
def mysqlSweepEnvW : SweepEnv := SweepEnv.mk (fun im => im == "mysqld.exe") false

/-- The MySQL cleanup trace under `mysqlSweepEnvW`. -/
def mysqlSweepActsW : List OsAct :=
  match MySQLProcessThread._cleanup_remaining_processes Platform.win32 mysqlSweepEnvW with
  | Except.ok l => l
  | Except.error _ => []

/-- Witness for C6 (amended): the MySQL cleanup sweep on win32 with a
surviving mysqld.exe returns ok and follows the 2-second-settle sweep
procedure. -/
theorem C6_sweeps_witness :
    sweepOk (MySQLProcessThread._cleanup_remaining_processes Platform.win32
      mysqlSweepEnvW) = true ∧
    SweepProcedure 2 mysqlSweepEnvW mysqlSweepActsW :=
  ⟨(C6_sweeps Platform.win32 mysqlSweepEnvW).1,
   (C6_sweeps Platform.win32 mysqlSweepEnvW).2.2.2.2.2.1 mysqlSweepActsW rfl⟩

/-! ## C7: grace arming and the countdown display -/

/-- While starting, one countdown block displays the current countdown and
decrements it (saturating at 0). -/
theorem countdown_tick_starting (running : Bool) (maxShown c : Nat) :
    (countdown_tick true running maxShown c).1 = c ∧
    (countdown_tick true running maxShown c).2 = c - 1 := by
  unfold countdown_tick
  rcases Nat.eq_zero_or_pos c with hc | hc
  · subst hc
    simp
  · have h1 : decide (c > 0) = true := by simpa using hc
    simp [h1]

/-- One `update_countdown` tick of a starting entry: it displays the
current countdown, decrements it, and leaves the starting flag and
thread untouched. -/
theorem starting_step (k : ServiceKind) (st : Launcher)
    (hs : isStartingOf k st = true) :
    viewOf k (update_countdown st).2 = countdownOf k st ∧
    countdownOf k (update_countdown st).1 = countdownOf k st - 1 ∧
    isStartingOf k (update_countdown st).1 = true := by
  cases k <;>
    simp_all [update_countdown, viewOf, countdownOf, isStartingOf,
      countdown_tick_starting]

/-- Iterated ticks of a starting entry: the countdown after `n` ticks is
the initial countdown minus `n`, and the entry stays starting. -/
theorem countdown_iter (k : ServiceKind) (st : Launcher)
    (hs : isStartingOf k st = true) (n : Nat) :
    isStartingOf k (updateIter st n) = true ∧
    countdownOf k (updateIter st n) = countdownOf k st - n := by
  induction n with
  | zero => exact ⟨hs, by simp [updateIter]⟩
  | succ n ih =>
    obtain ⟨ih1, ih2⟩ := ih
    have hstep := starting_step k (updateIter st n) ih1
    refine ⟨hstep.2.2, ?_⟩
    have : updateIter st (n + 1) = (update_countdown (updateIter st n)).1 := rfl
    rw [this, hstep.2.1, ih2]
    omega

/-- C7: a successful start arms the startup timer with exactly 1000 ms per
countdown second and initializes the countdown to the kind's grace period
(Database 10, AuthServer 10, WorldServer 120, Client 15, WebServer 10 —
the same value `update_countdown` shows for a stopped entry); while
Starting, the 1-second samples count monotonically down from the grace
value to exactly 0 and hold at 0; while Running the display is 0; while
Stopped it is the configured maximum. -/
theorem C7_grace_countdown (k : ServiceKind) (pf : Bool) (st st2 : Launcher)
    (arm : StartArm) (hstart : start_service k pf st = (st2, some arm)) :
    arm.timer_ms = 1000 * arm.countdown_init ∧
    arm.countdown_init = countdownMax k ∧
    countdownOf k st2 = countdownMax k ∧
    isStartingOf k st2 = true ∧
    (∀ st3, isStartingOf k st3 = true →
      (∀ n, sampleAt k st3 n = countdownOf k st3 - n) ∧
      (∀ n, sampleAt k st3 (n + 1) ≤ sampleAt k st3 n) ∧
      (∀ n, countdownOf k st3 ≤ n → sampleAt k st3 n = 0) ∧
      sampleAt k st3 0 = countdownOf k st3) ∧
    (∀ st3, isStartingOf k st3 = false →
      threadIsRunning (threadOf k st3) = true → sampleAt k st3 0 = 0) ∧
    (∀ st3, isStartingOf k st3 = false →
      threadIsRunning (threadOf k st3) = false →
      sampleAt k st3 0 = countdownMax k) := by
  have hsample : ∀ st3, isStartingOf k st3 = true →
      ∀ n, sampleAt k st3 n = countdownOf k st3 - n := by
    intro st3 h3 n
    obtain ⟨hi1, hi2⟩ := countdown_iter k st3 h3 n
    have hstep := starting_step k (updateIter st3 n) hi1
    unfold sampleAt
    rw [hstep.1, hi2]
  refine ⟨?_, ?_, ?_, ?_, ?_, ?_, ?_⟩
  · cases k <;>
      simp only [start_service, start_mysql, start_authserver, start_worldserver,
        start_client, start_webserver] at hstart <;>
      split at hstart <;> simp_all <;>
      split at hstart <;> simp_all <;>
      obtain ⟨rfl, rfl⟩ := hstart <;> rfl
  · cases k <;>
      simp only [start_service, start_mysql, start_authserver, start_worldserver,
        start_client, start_webserver] at hstart <;>
      split at hstart <;> simp_all <;>
      split at hstart <;> simp_all <;>
      obtain ⟨rfl, rfl⟩ := hstart <;> rfl
  · cases k <;>
      simp only [start_service, start_mysql, start_authserver, start_worldserver,
        start_client, start_webserver] at hstart <;>
      split at hstart <;> simp_all <;>
      split at hstart <;> simp_all <;>
      obtain ⟨rfl, rfl⟩ := hstart <;> rfl
  · cases k <;>
      simp only [start_service, start_mysql, start_authserver, start_worldserver,
        start_client, start_webserver] at hstart <;>
      split at hstart <;> simp_all <;>
      split at hstart <;> simp_all <;>
      obtain ⟨rfl, rfl⟩ := hstart <;> rfl
  · intro st3 h3
    refine ⟨hsample st3 h3, ?_, ?_, ?_⟩
    · intro n
      rw [hsample st3 h3, hsample st3 h3]
      omega
    · intro n hn
      rw [hsample st3 h3]
      omega
    · rw [hsample st3 h3]
      omega
  · intro st3 h3 hrun
    unfold sampleAt updateIter
    cases k <;>
      simp_all [update_countdown, viewOf, countdown_tick, isStartingOf, threadOf]
  · intro st3 h3 hrun
    unfold sampleAt updateIter
    cases k <;>
      simp_all [update_countdown, viewOf, countdown_tick, isStartingOf, threadOf,
        countdownMax]

/-- The launcher the C7 witness starts the WorldServer from. -/
def worldStartSt : Launcher :=
  { idleLauncher with world_path := "C:/ws/worldserver.exe" }

/-- Witness for C7: starting the WorldServer entry of a concrete idle
launcher with a valid path. -/
theorem C7_grace_countdown_witness :
    (StartArm.mk 120000 120).timer_ms
      = 1000 * (StartArm.mk 120000 120).countdown_init ∧
    (StartArm.mk 120000 120).countdown_init = countdownMax ServiceKind.WorldServer ∧
    countdownOf ServiceKind.WorldServer
      (start_service ServiceKind.WorldServer true worldStartSt).1
      = countdownMax ServiceKind.WorldServer ∧
    isStartingOf ServiceKind.WorldServer
      (start_service ServiceKind.WorldServer true worldStartSt).1 = true ∧
    (∀ st3, isStartingOf ServiceKind.WorldServer st3 = true →
      (∀ n, sampleAt ServiceKind.WorldServer st3 n
        = countdownOf ServiceKind.WorldServer st3 - n) ∧
      (∀ n, sampleAt ServiceKind.WorldServer st3 (n + 1)
        ≤ sampleAt ServiceKind.WorldServer st3 n) ∧
      (∀ n, countdownOf ServiceKind.WorldServer st3 ≤ n →
        sampleAt ServiceKind.WorldServer st3 n = 0) ∧
      sampleAt ServiceKind.WorldServer st3 0
        = countdownOf ServiceKind.WorldServer st3) ∧
    (∀ st3, isStartingOf ServiceKind.WorldServer st3 = false →
      threadIsRunning (threadOf ServiceKind.WorldServer st3) = true →
      sampleAt ServiceKind.WorldServer st3 0 = 0) ∧
    (∀ st3, isStartingOf ServiceKind.WorldServer st3 = false →
      threadIsRunning (threadOf ServiceKind.WorldServer st3) = false →
      sampleAt ServiceKind.WorldServer st3 0
        = countdownMax ServiceKind.WorldServer) :=
  C7_grace_countdown ServiceKind.WorldServer true worldStartSt
    (start_service ServiceKind.WorldServer true worldStartSt).1
    (StartArm.mk 120000 120) (by decide)

/-! ## C8: per-service log headers -/

/-- C8 counterexample: the MySQL (Database) log header contains no
resolved-absolute-path, file-exists or file-size fields, so the claimed
header fields are not a subsequence of it. -/
theorem C8_counterexample :
    ¬ List.Sublist
        (claimHeaderFields (serviceName ServiceKind.Database)
          (FsEnv.mk (fun p => p) true 4096) "C:/sql/mysqld.exe")
        (run_header ServiceKind.Database (FsEnv.mk (fun p => p) true 4096)
          "C:/sql/mysqld.exe") := by
  decide

/-- C8 (amended): the AuthServer, WorldServer, Client and WebServer start
headers contain, in order, the service name with local timestamp, the
resolved absolute executable path, the file-exists boolean and the file
size (or "N/A"); the Database header carries only the service name with
timestamp and the configured (unresolved) executable path — it has no
file-exists, file-size or absolute-path field. -/
theorem C8_log_headers (env : FsEnv) (path : String) :
    (∀ k, (k = ServiceKind.AuthServer ∨ k = ServiceKind.WorldServer ∨
        k = ServiceKind.Client ∨ k = ServiceKind.WebServer) →
      List.Sublist (claimHeaderFields (serviceName k) env path)
        (run_header k env path)) ∧
    LogLine.started "MySQL" ∈ run_header ServiceKind.Database env path ∧
    LogLine.executable path ∈ run_header ServiceKind.Database env path ∧
    (∀ b, LogLine.fileExists b ∉ run_header ServiceKind.Database env path) ∧
    (∀ p2, LogLine.absPath p2 ∉ run_header ServiceKind.Database env path) := by
  refine ⟨?_, ?_, ?_, ?_, ?_⟩
  · rintro k (rfl | rfl | rfl | rfl) <;>
      simp only [run_header, debugRunHeader, claimHeaderFields, serviceName] <;>
      exact .cons₂ _ (.cons _ (.cons _ (.cons _ (.cons _ (.cons₂ _ (.cons _
        (.cons₂ _ (.cons₂ _ .slnil))))))))
  · simp [run_header, mysqlRunHeader]
  · simp [run_header, mysqlRunHeader]
  · intro b
    simp [run_header, mysqlRunHeader]
  · intro p2
    simp [run_header, mysqlRunHeader]

/-- Witness for C8 (amended): the AuthServer header at a concrete
environment, plus the Database header's name-and-timestamp line. -/
theorem C8_log_headers_witness :
    List.Sublist
      (claimHeaderFields (serviceName ServiceKind.AuthServer)
        (FsEnv.mk (fun p => p) true 7) "C:/ac/authserver.exe")
      (run_header ServiceKind.AuthServer (FsEnv.mk (fun p => p) true 7)
        "C:/ac/authserver.exe") ∧
    LogLine.started "MySQL"
      ∈ run_header ServiceKind.Database (FsEnv.mk (fun p => p) true 7)
          "C:/ac/authserver.exe" :=
  ⟨(C8_log_headers (FsEnv.mk (fun p => p) true 7) "C:/ac/authserver.exe").1
      ServiceKind.AuthServer (Or.inl rfl),
   (C8_log_headers (FsEnv.mk (fun p => p) true 7) "C:/ac/authserver.exe").2.1⟩

/-! ## C9: configuration round-trip -/

/-- C9: saving a configuration and loading it back yields identical values
for all five service executable paths and the autorestart flag. -/
theorem C9_config_roundtrip (c : Config) :
    (load_config (some (save_config c))).mysql_path = c.mysql_path ∧
    (load_config (some (save_config c))).auth_path = c.auth_path ∧
    (load_config (some (save_config c))).world_path = c.world_path ∧
    (load_config (some (save_config c))).client_path = c.client_path ∧
    (load_config (some (save_config c))).web_path = c.web_path ∧
    (load_config (some (save_config c))).autorestart_enabled
      = c.autorestart_enabled := by
  refine ⟨rfl, rfl, rfl, rfl, rfl, rfl⟩

/-! ## C10: Client and WebServer exits never autorestart -/

/-- C10: the Client and WebServer process-finished handlers never invoke
the autorestart trigger — for every launcher state, hence for every value
of the autorestart and manual-stop flags — and only reset the entry's
displayed state to stopped. -/
theorem C10_client_web_finished (st : Launcher) :
    (on_client_process_finished st).2 = false ∧
    (on_web_process_finished st).2 = false ∧
    (∀ env, autorestartLaunches ServiceKind.Client st env = none) ∧
    (∀ env, autorestartLaunches ServiceKind.WebServer st env = none) ∧
    (on_client_process_finished st).1
      = { st with
            client_status_led := Led.stopped, client_start_btn := true,
            client_stop_btn := false, client_is_starting := false } ∧
    (on_web_process_finished st).1
      = { st with
            web_status_led := Led.stopped, web_start_btn := true,
            web_stop_btn := false, web_is_starting := false } := by
  refine ⟨rfl, rfl, ?_, ?_, rfl, rfl⟩ <;>
    · intro env
      simp [autorestartLaunches, on_finished, on_client_process_finished,
        on_web_process_finished]

end ACP
